import Mathlib

/-!
Shallow embedding of the core of the ROOK health-data backend (server.js):
the cache-aside snapshot routes, the profile merge-upsert routes, and the
result classification (`handleNoContent`).  The upstream provider client
(axios `rookApi`) is modelled as an oracle function from requests to
answers, together with the default axios `validateStatus` behaviour
(a response resolves exactly when its status is in 200..299, otherwise the
promise rejects with an error carrying the status of the response and a message).
The Prisma store is modelled as a list of rows; `findFirst`/`findUnique`
are front-to-back searches and `upsert` either maps the matching row
through the update or appends a freshly created row.
-/

namespace Rook

/-- JSON-like runtime values as delivered by `body-parser` / axios
(`response.data`).  `num` carries a rational standing for a JS number;
JS `undefined` is not a JSON value and is represented at use sites by
`Option Json` (`none` = absent / `undefined`). -/
inductive Json where
  | null
  | bool (b : Bool)
  | num (q : ℚ)
  | str (s : String)
  | arr (elems : List Json)
  | obj (fields : List (String × Json))

/-- JS truthiness of a defined value (`if (v) ...`): `null`, `false`, `0`
and the empty string are falsy; every object and array is truthy. -/
def Json.truthy : Json → Bool
  | .null => false
  | .bool b => b
  | .num q => q ≠ 0
  | .str s => s ≠ ""
  | .arr _ => true
  | .obj _ => true

/-- JS truthiness of a possibly-`undefined` value. -/
def jsTruthy : Option Json → Bool
  | none => false
  | some v => v.truthy

/-- Property access `v.k` on a value that is known not to be `null`
(JS property access on strings, numbers, booleans and arrays yields
`undefined` for our keys; on objects it is a key lookup). -/
def Json.prop (v : Json) (k : String) : Option Json :=
  match v with
  | .obj fields => fields.lookup k
  | _ => none

/-- Property access `v.k` as executed by JS: reading a property of `null`
throws a TypeError, every other value yields `Json.prop`. -/
def Json.propE (v : Json) (k : String) : Except String (Option Json) :=
  match v with
  | .null => .error ("TypeError: Cannot read properties of null (reading " ++ k ++ ")")
  | _ => .ok (v.prop k)

/-- Optional chaining `x?.k` on a possibly-`undefined` value: `null` and
`undefined` short-circuit to `undefined`, anything else is a plain access. -/
def jsOptChain (x : Option Json) (k : String) : Option Json :=
  match x with
  | none => none
  | some .null => none
  | some v => v.prop k

/-- Body of an HTTP response produced by Express: either a JSON payload
(`res.json(v)`) or no body at all (`res.send()` on a 204). -/
inductive HttpBody where
  | jsonBody (j : Json)
  | empty

/-- The (status, body) pair a route handler sends back to its caller. -/
structure HttpRes where
  status : Nat
  body : HttpBody

/-- Response `res.status(s).json(v)` as Express executes it: for status 204 the
body is stripped (Node forbids a body on 204), otherwise the JSON payload
is sent with the given status. -/
def expressRespond (s : Nat) (v : Json) : HttpRes :=
  if s = 204 then ⟨204, .empty⟩ else ⟨s, .jsonBody v⟩

/-- Response `res.json(v)` with no explicit status: Express uses status 200. -/
def expressJson (v : Json) : HttpRes := ⟨200, .jsonBody v⟩

/-- Error response bodies `{ error: msg }` used by all catch blocks. -/
def errBody (msg : String) : HttpBody :=
  .jsonBody (.obj [("error", .str msg)])

/-- A request issued through the `rookApi` axios instance. -/
structure Req where
  method : String
  url : String
  reqData : Option Json

/-- What the wire produces for a request: either a response with a status
and a body, or a transport-level failure with a message. -/
inductive UpstreamAnswer where
  | reply (status : Nat) (data : Json)
  | netFail (msg : String)

/-- The upstream provider client as an oracle from requests to answers. -/
abbrev Client : Type := Req → UpstreamAnswer

/-- The error object an axios promise rejects with: `error.response?.status`,
`error.response?.data` and `error.message`. A transport failure has no
response, hence no status and no data. -/
structure AxiosErr where
  status : Option Nat
  errData : Option Json
  message : String

/-- The default axios `validateStatus`: a response resolves iff
`200 <= status < 300`; any other status rejects with an error carrying
the response, and a transport failure rejects with a response-less error. -/
def axiosExec (ans : UpstreamAnswer) : Except AxiosErr (Nat × Json) :=
  match ans with
  | .reply s b =>
      if 200 ≤ s ∧ s < 300 then .ok (s, b)
      else .error ⟨some s, some b, "Request failed with status code " ++ toString s⟩
  | .netFail m => .error ⟨none, none, m⟩

/-- Fallback `error.response?.status || 500`: JS `||` replaces any falsy value
(including status 0) by 500. -/
def statusOr500 : Option Nat → Nat
  | none => 500
  | some s => if s = 0 then 500 else s

/-- Helper `handleNoContent(error, res)` from server.js: a caught error whose
response carries status 204 is answered with an empty 204, any other error
with the status of the response (500 when there is none) and an error body. -/
def handleNoContent (e : AxiosErr) : HttpRes :=
  if e.status = some 204 then ⟨204, .empty⟩
  else ⟨statusOr500 e.status, errBody e.message⟩

/-- A row of the `HealthData` table (the HealthSnapshot cache). -/
structure HealthRow where
  id : Nat
  user_id : String
  data_type : String
  date : String
  data : Json
  fetched_at : Nat

/-- The HealthSnapshot store: rows in insertion order, no uniqueness on
(user_id, data_type, date); `findFirst` is a front-to-back search. -/
abbrev HealthStore : Type := List HealthRow

/-- Lookup `prisma.healthData.findFirst({ where: { user_id, data_type, date } })`. -/
def healthFindFirst (s : HealthStore) (uid dt d : String) : Option HealthRow :=
  s.find? (fun r => r.user_id == uid && r.data_type == dt && r.date == d)

/-- Result of running one route handler: the HTTP response, the store
after the call, and how many upstream calls / store reads / store writes
the handler performed. -/
structure OpOut (σ : Type) where
  res : HttpRes
  store : σ
  upstreamCalls : Nat
  storeReads : Nat
  storeWrites : Nat

/-- The upstream request a snapshot route issues on a cache miss, with
`user_id` and `date` as query parameters. -/
def snapReq (path uid date : String) : Req :=
  ⟨"get", path ++ "?user_id=" ++ uid ++ "&date=" ++ date, none⟩

/-- The one generic cache-aside read shared verbatim by the five
`/health/...` routes of server.js, parameterized by the upstream resource
path and the `data_type` cache tag: look the key up, on a hit answer the
cached `data` with `res.json` (status 200, no upstream call); on a miss
call upstream, and when the call resolves write a cache row only when the
body is truthy, answering `res.json(response.data)` either way; a rejected
call is answered by `handleNoContent`. -/
def getSnapshot (client : Client) (s : HealthStore) (now : Nat)
    (path : String) (dataType : String) (uid date : String) : OpOut HealthStore :=
  match healthFindFirst s uid dataType date with
  | some cached =>
      ⟨expressJson cached.data, s, 0, 1, 0⟩
  | none =>
      match axiosExec (client (snapReq path uid date)) with
      | .ok (_, b) =>
          if b.truthy then
            ⟨expressJson b, s ++ [⟨s.length + 1, uid, dataType, date, b, now⟩], 1, 1, 1⟩
          else
            ⟨expressJson b, s, 1, 1, 0⟩
      | .error e => ⟨handleNoContent e, s, 1, 1, 0⟩

/-- Route `GET /health/physical/summary`. -/
def physicalSummary (client : Client) (s : HealthStore) (now : Nat)
    (uid date : String) : OpOut HealthStore :=
  getSnapshot client s now "/v2/processed_data/physical_health/summary" "physical_summary" uid date

/-- Route `GET /health/physical/events/:type`. -/
def physicalEvents (client : Client) (s : HealthStore) (now : Nat)
    (type uid date : String) : OpOut HealthStore :=
  getSnapshot client s now ("/v2/processed_data/physical_health/events/" ++ type)
    ("physical_" ++ type) uid date

/-- Route `GET /health/sleep/summary`. -/
def sleepSummary (client : Client) (s : HealthStore) (now : Nat)
    (uid date : String) : OpOut HealthStore :=
  getSnapshot client s now "/v2/processed_data/sleep_health/summary" "sleep_summary" uid date

/-- Route `GET /health/body/summary`. -/
def bodySummary (client : Client) (s : HealthStore) (now : Nat)
    (uid date : String) : OpOut HealthStore :=
  getSnapshot client s now "/v2/processed_data/body_health/summary" "body_summary" uid date

/-- Route `GET /health/body/events/:type`. -/
def bodyEvents (client : Client) (s : HealthStore) (now : Nat)
    (type uid date : String) : OpOut HealthStore :=
  getSnapshot client s now ("/v2/processed_data/body_health/events/" ++ type)
    ("body_" ++ type) uid date

/-- A row of the `User` table (UserProfile). All columns except the
primary key are nullable. -/
structure UserRow where
  user_id : String
  date_of_birth : Option String
  height_cm : Option Int
  weight_kg : Option ℚ
  bmi : Option ℚ
  sex : Option String
  time_zone : Option String
  offset : Option String

/-- One field of a Prisma `update`/`create` argument object: a key may be
absent or `undefined` (skipped on update, NULL on create), explicitly
`null` (sets NULL), or carry a value. -/
inductive FieldArg (α : Type) where
  | undef
  | nullv
  | val (a : α)

/-- Prisma `update` semantics for one field: `undefined` keeps the stored
value, `null` clears it, a value overwrites it. -/
def updField {α : Type} (old : Option α) : FieldArg α → Option α
  | .undef => old
  | .nullv => none
  | .val a => some a

/-- Prisma `create` semantics for one nullable field: `undefined` and
`null` both produce NULL, a value is stored. -/
def createField {α : Type} : FieldArg α → Option α
  | .undef => none
  | .nullv => none
  | .val a => some a

/-- Convert a possibly-absent JS value into a Prisma argument for a String
column; a defined value of any other runtime type makes the Prisma client
throw a validation error before any query runs. -/
def strArg : Option Json → Except String (FieldArg String)
  | none => .ok .undef
  | some .null => .ok .nullv
  | some (.str s) => .ok (.val s)
  | some _ => .error "PrismaClientValidationError: invalid value, expected String"

/-- Prisma argument for an Int column: JS numbers with a fractional part,
and every non-number, are rejected by the Prisma client. -/
def intArg : Option Json → Except String (FieldArg Int)
  | none => .ok .undef
  | some .null => .ok .nullv
  | some (.num q) =>
      if q.den = 1 then .ok (.val q.num)
      else .error "PrismaClientValidationError: invalid value, expected Int"
  | some _ => .error "PrismaClientValidationError: invalid value, expected Int"

/-- Prisma argument for a Float column. -/
def floatArg : Option Json → Except String (FieldArg ℚ)
  | none => .ok .undef
  | some .null => .ok .nullv
  | some (.num q) => .ok (.val q)
  | some _ => .error "PrismaClientValidationError: invalid value, expected Float"

/-- Upsert `prisma.user.upsert({ where: { user_id }, update, create })`: when a
row with the key exists it is mapped through the update, otherwise the
created row is appended. `user_id` is unique, so at most one row matches. -/
def upsertUser (s : List UserRow) (uid : String) (upd : UserRow → UserRow)
    (created : UserRow) : List UserRow :=
  if s.any (fun r => r.user_id == uid) then
    s.map (fun r => if r.user_id == uid then upd r else r)
  else s ++ [created]

/-- Lookup `prisma.user.findUnique({ where: { user_id } })`. -/
def userFind (s : List UserRow) (uid : String) : Option UserRow :=
  s.find? (fun r => r.user_id == uid)

/-- The JSON body of a `POST /users/info` request, one optional slot per
key of `userSchema` (`none` = key absent) plus the names of any keys
outside the schema (Joi rejects unknown keys by default). -/
structure ProfileBody where
  datetime : Option Json
  user_id : Option Json
  date_of_birth_string : Option Json
  height_cm_int : Option Json
  weight_kg_float : Option Json
  bmi_float : Option Json
  sex_string : Option Json
  extras : List String

/-- Serialization of the body for the upstream call (`JSON.stringify`
drops absent keys). Unknown keys never reach this point: a body with
extras fails validation before the upstream call. -/
def ProfileBody.toJson (b : ProfileBody) : Json :=
  .obj (([("datetime", b.datetime), ("user_id", b.user_id),
          ("date_of_birth_string", b.date_of_birth_string),
          ("height_cm_int", b.height_cm_int),
          ("weight_kg_float", b.weight_kg_float),
          ("bmi_float", b.bmi_float),
          ("sex_string", b.sex_string)]).filterMap
    (fun p => p.2.map (fun v => (p.1, v))))

/-- Digits of a nonempty all-digit character run, as a number. -/
def decDigits? (cs : List Char) : Option Nat :=
  if cs ≠ [] && cs.all Char.isDigit then
    some (cs.foldl (fun n c => n * 10 + (c.toNat - 48)) 0)
  else none

/-- The Joi `convert` coercion of a string to a number, for plain decimal
numerals (optional minus sign, digits, optional fractional part); the
exotic numeral forms JS `Number` also accepts (exponents, hex, surrounding
whitespace) are not modelled. -/
def decStrToRat (s : String) : Option ℚ :=
  let (neg, body) := if s.startsWith "-" then (true, s.drop 1) else (false, s)
  let q? : Option ℚ :=
    match body.splitOn "." with
    | [w] => (decDigits? w.toList).map (fun n => (n : ℚ))
    | [w, f] => do
        let wn ← decDigits? w.toList
        let fn ← decDigits? f.toList
        pure ((wn : ℚ) + (fn : ℚ) / ((10 : ℚ) ^ f.length))
    | _ => none
  q?.map (fun q => if neg then -q else q)

/-- Acceptance of `Joi.number()`: a JS number, or (via `convert`, the default)
a string that reads as a number. -/
def numberish : Json → Option ℚ
  | .num q => some q
  | .str s => decStrToRat s
  | _ => none

/-- The regex `/^\d{4}-\d{2}-\d{2}$/` of `date_of_birth_string`. -/
def dobShape (s : String) : Bool :=
  match s.toList with
  | [y1, y2, y3, y4, '-', m1, m2, '-', d1, d2] =>
      [y1, y2, y3, y4, m1, m2, d1, d2].all Char.isDigit
  | _ => false

/-- The regex `/^[a-zA-Z0-9-]{1,50}$/` of `user_id`. -/
def userIdShape (s : String) : Bool :=
  1 ≤ s.length && s.length ≤ 50 &&
    s.toList.all (fun c => c.isAlphanum || c == '-')

/-- Two decimal digits, returning their value and the rest of the input. -/
def twoDigits : List Char → Option (Nat × List Char)
  | a :: b :: rest =>
      if a.isDigit && b.isDigit then
        some ((a.toNat - 48) * 10 + (b.toNat - 48), rest)
      else none
  | _ => none

/-- Time-zone suffix of an ISO date-time: nothing, `Z`, or `±hh:mm`. -/
def zoneShape : List Char → Bool
  | [] => true
  | ['Z'] => true
  | ['z'] => true
  | '+' :: rest =>
      (match twoDigits rest with
       | some (h, ':' :: rest2) =>
           h ≤ 23 && (match twoDigits rest2 with
                      | some (m, []) => m ≤ 59
                      | _ => false)
       | _ => false)
  | '-' :: rest =>
      (match twoDigits rest with
       | some (h, ':' :: rest2) =>
           h ≤ 23 && (match twoDigits rest2 with
                      | some (m, []) => m ≤ 59
                      | _ => false)
       | _ => false)
  | _ => false

/-- Optional fractional seconds, then the time-zone suffix. -/
def fracZone (cs : List Char) : Bool :=
  match cs with
  | '.' :: rest =>
      let ds := rest.takeWhile Char.isDigit
      ds ≠ [] && zoneShape (rest.drop ds.length)
  | _ => zoneShape cs

/-- Time of day `hh:mm`, optional `:ss` with optional fraction, optional zone. -/
def timeShape (cs : List Char) : Bool :=
  match twoDigits cs with
  | some (h, ':' :: rest) =>
      h ≤ 23 && (match twoDigits rest with
        | some (m, rest2) =>
            m ≤ 59 && (match rest2 with
              | ':' :: rest3 =>
                  (match twoDigits rest3 with
                   | some (sec, rest4) => sec ≤ 59 && fracZone rest4
                   | none => false)
              | _ => zoneShape rest2)
        | none => false)
  | _ => false

/-- The subset of the Joi `isoDate` format used here: a calendar date
`YYYY-MM-DD` optionally followed by a `T`-separated time with optional
seconds, fraction and zone. -/
def isoDateShape (s : String) : Bool :=
  match s.toList with
  | y1 :: y2 :: y3 :: y4 :: '-' :: m1 :: m2 :: '-' :: d1 :: d2 :: rest =>
      ([y1, y2, y3, y4, m1, m2, d1, d2].all Char.isDigit) &&
      (let mm := (m1.toNat - 48) * 10 + (m2.toNat - 48)
       let dd := (d1.toNat - 48) * 10 + (d2.toNat - 48)
       decide (1 ≤ mm) && decide (mm ≤ 12) && decide (1 ≤ dd) && decide (dd ≤ 31)) &&
      (match rest with
       | [] => true
       | 'T' :: t => timeShape t
       | _ => false)
  | _ => false

/-- Check for `datetime: Joi.string().isoDate().required()` (Joi strings reject
non-strings, `null`, and the empty string). -/
def checkDatetime : Option Json → Option String
  | none => some "datetime is required"
  | some (.str s) =>
      if s = "" then some "datetime is not allowed to be empty"
      else if isoDateShape s then none
      else some "datetime must be in iso format"
  | some _ => some "datetime must be a string"

/-- Check for `user_id: Joi.string().pattern(...).required()`. -/
def checkUserId : Option Json → Option String
  | none => some "user_id is required"
  | some (.str s) =>
      if s = "" then some "user_id is not allowed to be empty"
      else if userIdShape s then none
      else some "user_id with value fails to match the required pattern"
  | some _ => some "user_id must be a string"

/-- Check for `date_of_birth_string`, an optional string under the regex of
`dobShape`. -/
def checkDob : Option Json → Option String
  | none => none
  | some (.str s) =>
      if s = "" then some "date_of_birth_string is not allowed to be empty"
      else if dobShape s then none
      else some "date_of_birth_string with value fails to match the required pattern"
  | some _ => some "date_of_birth_string must be a string"

/-- Check for `Joi.number().integer()` on an optional key. -/
def checkIntField (name : String) : Option Json → Option String
  | none => none
  | some v =>
      match numberish v with
      | some q => if q.den = 1 then none else some (name ++ " must be an integer")
      | none => some (name ++ " must be a number")

/-- Check for `Joi.number()` on an optional key. -/
def checkNumField (name : String) : Option Json → Option String
  | none => none
  | some v =>
      match numberish v with
      | some _ => none
      | none => some (name ++ " must be a number")

/-- Check for `sex_string`, which Joi constrains to the two values
female and male. -/
def checkSex : Option Json → Option String
  | none => none
  | some (.str s) =>
      if s = "female" || s = "male" then none
      else some "sex_string must be one of [female, male]"
  | some _ => some "sex_string must be one of [female, male]"

/-- First failure among a sequence of checks (Joi aborts at the first
error by default, reported as `error.details[0].message`). -/
def firstErr : List (Option String) → Option String
  | [] => none
  | some e :: _ => some e
  | none :: rest => firstErr rest

/-- Check that the body has no keys outside the schema (Joi rejects
unknown keys by default). -/
def checkExtras : List String → Option String
  | [] => none
  | k :: _ => some (k ++ " is not allowed")

/-- Validation `userSchema.validate(req.body)` with the Joi defaults (`abortEarly`,
unknown keys rejected): `none` when the body is valid, otherwise the
message of the first failing check (`error.details[0].message`). -/
def validateUser (b : ProfileBody) : Option String :=
  firstErr [checkDatetime b.datetime, checkUserId b.user_id,
    checkDob b.date_of_birth_string,
    checkIntField "height_cm_int" b.height_cm_int,
    checkNumField "weight_kg_float" b.weight_kg_float,
    checkNumField "bmi_float" b.bmi_float,
    checkSex b.sex_string,
    checkExtras b.extras]

/-- The upstream call of `POST /users/info`. -/
def userInfoReq (b : ProfileBody) : Req :=
  ⟨"post", "/api/v2/user-information", some b.toJson⟩

/-- The `prisma.user.upsert` of `POST /users/info`: the update object
names exactly the five profile fields of the schema (absent keys are
`undefined`, hence skipped), the create object additionally carries the
key; `time_zone` and `offset` appear in neither. -/
def userInfoWrite (s : List UserRow) (b : ProfileBody) : Except String (List UserRow) := do
  let uid ← (match b.user_id with
    | some (.str u) => Except.ok u
    | _ => Except.error "PrismaClientValidationError: invalid value, expected String")
  let dob ← strArg b.date_of_birth_string
  let h ← intArg b.height_cm_int
  let w ← floatArg b.weight_kg_float
  let bm ← floatArg b.bmi_float
  let sx ← strArg b.sex_string
  Except.ok (upsertUser s uid
    (fun r => { r with
      date_of_birth := updField r.date_of_birth dob
      height_cm := updField r.height_cm h
      weight_kg := updField r.weight_kg w
      bmi := updField r.bmi bm
      sex := updField r.sex sx })
    ⟨uid, createField dob, createField h, createField w, createField bm,
     createField sx, none, none⟩)

/-- Route `POST /users/info`: the Joi middleware answers 422 before any network
or store activity; otherwise upstream is called first, on success the
merge-upsert runs and the upstream status and body are passed through,
and a rejected upstream call leaves the store untouched and surfaces
`error.response?.status || 500` with `{error: message}`. -/
def submitProfile (client : Client) (s : List UserRow) (b : ProfileBody) :
    OpOut (List UserRow) :=
  match validateUser b with
  | some msg => ⟨⟨422, errBody msg⟩, s, 0, 0, 0⟩
  | none =>
      match axiosExec (client (userInfoReq b)) with
      | .error e => ⟨⟨statusOr500 e.status, errBody e.message⟩, s, 1, 0, 0⟩
      | .ok (st, rb) =>
          match userInfoWrite s b with
          | .error m => ⟨⟨500, errBody m⟩, s, 1, 0, 0⟩
          | .ok s2 => ⟨expressRespond st rb, s2, 1, 0, 1⟩

/-- The body `{ time_zone, offset }` of the upstream time-zone call
(`JSON.stringify` drops `undefined` values). -/
def tzBody (tz off : Option Json) : Json :=
  .obj (([("time_zone", tz), ("offset", off)]).filterMap
    (fun p => p.2.map (fun v => (p.1, v))))

/-- The upstream call of `POST /users/:user_id/timezone`. -/
def tzReq (uid : String) (tz off : Option Json) : Req :=
  ⟨"post", "/api/v1/user_id/" ++ uid ++ "/time_zone", some (tzBody tz off)⟩

/-- Conversion of both time-zone fields into Prisma arguments (the two
columns the route writes). -/
def tzArgs (tz off : Option Json) : Except String (FieldArg String × FieldArg String) := do
  let t ← strArg tz
  let o ← strArg off
  Except.ok (t, o)

/-- Route `POST /users/:user_id/timezone`: no validation of any kind — the
upstream call is always issued with whatever `time_zone`/`offset` the body
held; on success exactly those two fields are upserted. -/
def setTimeZone (client : Client) (s : List UserRow) (uid : String)
    (tz off : Option Json) : OpOut (List UserRow) :=
  match axiosExec (client (tzReq uid tz off)) with
  | .error e => ⟨⟨statusOr500 e.status, errBody e.message⟩, s, 1, 0, 0⟩
  | .ok (st, rb) =>
      match tzArgs tz off with
      | .error m => ⟨⟨500, errBody m⟩, s, 1, 0, 0⟩
      | .ok (t, o) =>
          ⟨expressRespond st rb,
           upsertUser s uid
             (fun r => { r with
                time_zone := updField r.time_zone t
                offset := updField r.offset o })
             ⟨uid, none, none, none, none, none, createField t, createField o⟩,
           1, 0, 1⟩

/-- Serialization of a stored User row as Prisma returns it (NULL columns
as JSON null). -/
def optStrJson : Option String → Json
  | none => .null
  | some s => .str s

/-- The cached row as sent back by `GET /users/:user_id/info`. -/
def userToJson (u : UserRow) : Json :=
  .obj [("user_id", .str u.user_id),
        ("date_of_birth", optStrJson u.date_of_birth),
        ("height_cm", match u.height_cm with | some i => .num (i : ℚ) | none => .null),
        ("weight_kg", match u.weight_kg with | some q => .num q | none => .null),
        ("bmi", match u.bmi with | some q => .num q | none => .null),
        ("sex", optStrJson u.sex),
        ("time_zone", optStrJson u.time_zone),
        ("offset", optStrJson u.offset)]

/-- The `date` query parameter inside the template literal of the upstream
URL: an absent parameter prints as the string `undefined`. -/
def qDate : Option String → String
  | none => "undefined"
  | some d => d

/-- JS truthiness of the `date` query parameter (`!date`): absent and
empty-string parameters are falsy. -/
def dateTruthy : Option String → Bool
  | none => false
  | some s => s ≠ ""

/-- The upstream call of `GET /users/:user_id/info`. -/
def profileReq (uid : String) (date : Option String) : Req :=
  ⟨"get", "/v2/processed_data/user/info?user_id=" ++ uid ++ "&date=" ++ qDate date, none⟩

/-- The upstream path of `GET /users/:user_id/info` (reached when `date`
is truthy or no cached row exists; the `findUnique` read has already run).
On success, when `response.data.user_information` is truthy the handler
upserts only `date_of_birth` with
`...user_information.user_demographics?.date_of_birth_string` (the first
access can only throw when `response.data` itself is `null`, the
`user_demographics` access is guarded by the truthiness test), then the
upstream status and body pass through; a rejected call is answered by
`handleNoContent`. -/
def getProfileFetch (client : Client) (s : List UserRow) (uid : String)
    (date : Option String) : OpOut (List UserRow) :=
  match axiosExec (client (profileReq uid date)) with
  | .error e => ⟨handleNoContent e, s, 1, 1, 0⟩
  | .ok (st, rb) =>
      match rb.propE "user_information" with
      | .error m => ⟨⟨500, errBody m⟩, s, 1, 1, 0⟩
      | .ok ui =>
          if jsTruthy ui then
            match strArg (jsOptChain (jsOptChain ui "user_demographics")
                "date_of_birth_string") with
            | .error m => ⟨⟨500, errBody m⟩, s, 1, 1, 0⟩
            | .ok dobA =>
                ⟨expressRespond st rb,
                 upsertUser s uid
                   (fun r => { r with date_of_birth := updField r.date_of_birth dobA })
                   ⟨uid, createField dobA, none, none, none, none, none, none⟩,
                 1, 1, 1⟩
          else ⟨expressRespond st rb, s, 1, 1, 0⟩

/-- Route `GET /users/:user_id/info`: the stored row is authoritative when it
exists and the `date` query parameter is falsy; otherwise the upstream
path runs. -/
def getProfile (client : Client) (s : List UserRow) (uid : String)
    (date : Option String) : OpOut (List UserRow) :=
  match userFind s uid with
  | some u =>
      if dateTruthy date then getProfileFetch client s uid date
      else
        ⟨expressJson (.obj [("data_structure", .str "user_info"),
                            ("user_information", userToJson u)]), s, 0, 1, 0⟩
  | none => getProfileFetch client s uid date

/-- The field-wise merge the spec promises for `submitProfile`: a field
present in the (validated, number-typed) input overwrites the stored
field, an absent field keeps the stored value; `time_zone` and `offset`
are never part of this input. Stated from the words of the spec, for
comparison with what the upsert of the code produces. -/
def mergeRow (r : UserRow) (b : ProfileBody) : UserRow :=
  { r with
    date_of_birth := match b.date_of_birth_string with
      | some (.str d) => some d
      | _ => r.date_of_birth
    height_cm := match b.height_cm_int with
      | some (.num q) => some q.num
      | _ => r.height_cm
    weight_kg := match b.weight_kg_float with
      | some (.num q) => some q
      | _ => r.weight_kg
    bmi := match b.bmi_float with
      | some (.num q) => some q
      | _ => r.bmi
    sex := match b.sex_string with
      | some (.str v) => some v
      | _ => r.sex }

/-- Predicate for a numeric input field carried as an actual JS number
(rather than one of the numeric strings the Joi `convert` option also
tolerates, which the Prisma client would later reject at the write). -/
def numJson : Option Json → Bool
  | none => true
  | some (.num _) => true
  | _ => false

/-- Demo upstream client answering every request with status 200 and a
fixed score payload. -/
def clientScore : Client := fun _ => .reply 200 (.obj [("score", .num 82)])

/-- Demo upstream client answering every request with a 204 and the empty
string axios delivers as the body of a 204. -/
def client204 : Client := fun _ => .reply 204 (.str "")

/-- Demo upstream client answering every request with status 201 (a
success status other than 200) and a payload. -/
def client201 : Client := fun _ => .reply 201 (.obj [("created", .bool true)])

/-- Demo upstream client answering every request with status 200 and a
JSON null body. -/
def clientNull : Client := fun _ => .reply 200 .null

/-- Demo upstream client rejecting every request with status 400. -/
def client400 : Client := fun _ => .reply 400 (.obj [("error", .str "bad payload")])

/-- Demo upstream client rejecting every request with status 404. -/
def client404 : Client := fun _ => .reply 404 (.obj [("detail", .str "nope")])

/-- Demo cached snapshot row. -/
def rowA : HealthRow := ⟨1, "u1", "physical_summary", "2024-01-01", .str "cached", 3⟩

/-- Demo stored profile row, the one of the merge example in the spec. -/
def rowU : UserRow := ⟨"user-1", none, some 180, none, none, some "male", none, none⟩

/-- Demo invalid body: `user_id` is missing. -/
def badBody : ProfileBody :=
  ⟨some (.str "2024-06-01"), none, none, none, none, none, none, []⟩

/-- Demo valid partial update: only the weight is supplied. -/
def bodyW : ProfileBody :=
  ⟨some (.str "2024-06-01"), some (.str "user-1"), none, none, some (.num 75), none, none, []⟩

/-- Demo upstream profile payload whose user_information carries an
explicitly null date_of_birth_string. -/
def bodyDobNull : Json :=
  .obj [("user_information", .obj [("user_demographics",
    .obj [("date_of_birth_string", Json.null)])])]

/-- Demo upstream client answering 200 with `bodyDobNull`. -/
def clientDobNull : Client := fun _ => .reply 200 bodyDobNull

/-- Demo upstream profile payload carrying a date-of-birth value. -/
def bodyDobVal : Json :=
  .obj [("user_information", .obj [("user_demographics",
    .obj [("date_of_birth_string", .str "1985-05-05")])])]

/-- Demo upstream client answering 200 with `bodyDobVal`. -/
def clientDobVal : Client := fun _ => .reply 200 bodyDobVal

/-- Demo stored row with a non-null date of birth. -/
def rowDob : UserRow := ⟨"u1", some "1990-01-01", none, none, none, none, none, none⟩

/-- Searching a concatenation when the first part has no match continues
in the second part. -/
theorem find_append_none {α : Type} (p : α → Bool) (l l2 : List α)
    (h : l.find? p = none) : (l ++ l2).find? p = l2.find? p := by
  induction l with
  | nil => rfl
  | cons a t ih =>
      rw [List.find?_cons] at h
      rw [List.cons_append, List.find?_cons]
      cases hpa : p a with
      | true =>
          rw [hpa] at h
          exact absurd h (by simp)
      | false =>
          rw [hpa] at h
          exact ih h

/-- C1: for a key whose row already exists getSnapshot answers that row's
data with no upstream call; consequently two identical calls, the first of
which populates the row (miss, 2xx answer, truthy body), return the same
data both times with exactly one upstream call in total (one on the first
call, none on the second). -/
theorem c1_snapshot_cache_hit_and_idempotence
    (client : Client) (s : HealthStore) (now now2 : Nat) (path dt uid date : String) :
    (∀ r, healthFindFirst s uid dt date = some r →
        getSnapshot client s now path dt uid date = ⟨expressJson r.data, s, 0, 1, 0⟩) ∧
    (∀ st b, healthFindFirst s uid dt date = none →
        client (snapReq path uid date) = .reply st b →
        200 ≤ st → st < 300 → b.truthy = true →
        getSnapshot client s now path dt uid date =
          ⟨expressJson b, s ++ [⟨s.length + 1, uid, dt, date, b, now⟩], 1, 1, 1⟩ ∧
        getSnapshot client (s ++ [⟨s.length + 1, uid, dt, date, b, now⟩]) now2 path dt uid date =
          ⟨expressJson b, s ++ [⟨s.length + 1, uid, dt, date, b, now⟩], 0, 1, 0⟩) := by
  constructor
  · intro r h
    simp [getSnapshot, h]
  · intro st b hm hc h1 h2 ht
    have hfind2 : healthFindFirst (s ++ [⟨s.length + 1, uid, dt, date, b, now⟩]) uid dt date
        = some ⟨s.length + 1, uid, dt, date, b, now⟩ := by
      unfold healthFindFirst at hm ⊢
      rw [find_append_none _ _ _ hm]
      simp [List.find?]
    constructor
    · simp only [getSnapshot, hm, hc, axiosExec]
      rw [if_pos ⟨h1, h2⟩]
      simp [ht]
    · simp [getSnapshot, hfind2]

/-- C1 witness: a concrete hit is served from the store, and a concrete
miss-then-hit pair returns the same payload with one upstream call. -/
theorem c1_witness :
    getSnapshot clientScore [rowA] 5 "/v2/processed_data/physical_health/summary"
        "physical_summary" "u1" "2024-01-01"
      = ⟨expressJson (.str "cached"), [rowA], 0, 1, 0⟩ ∧
    getSnapshot clientScore [] 5 "/v2/processed_data/physical_health/summary"
        "physical_summary" "u1" "2024-01-01"
      = ⟨expressJson (.obj [("score", .num 82)]),
         [⟨1, "u1", "physical_summary", "2024-01-01", .obj [("score", .num 82)], 5⟩], 1, 1, 1⟩ ∧
    getSnapshot clientScore
        [⟨1, "u1", "physical_summary", "2024-01-01", .obj [("score", .num 82)], 5⟩] 9
        "/v2/processed_data/physical_health/summary" "physical_summary" "u1" "2024-01-01"
      = ⟨expressJson (.obj [("score", .num 82)]),
         [⟨1, "u1", "physical_summary", "2024-01-01", .obj [("score", .num 82)], 5⟩], 0, 1, 0⟩ := by
  have h := c1_snapshot_cache_hit_and_idempotence clientScore [] 5 9
    "/v2/processed_data/physical_health/summary" "physical_summary" "u1" "2024-01-01"
  have h2 := h.2 200 (.obj [("score", .num 82)]) rfl rfl (by decide) (by decide) rfl
  have hhit := (c1_snapshot_cache_hit_and_idempotence clientScore [rowA] 5 9
    "/v2/processed_data/physical_health/summary" "physical_summary" "u1" "2024-01-01").1 rowA rfl
  exact ⟨hhit, h2.1, h2.2⟩

/-- C4: on a cache miss where upstream resolves with a success status but
an empty (JS-falsy) body, the body is returned to the caller and no
HealthSnapshot row is created. -/
theorem c4_empty_body_not_cached
    (client : Client) (s : HealthStore) (now : Nat) (path dt uid date : String)
    (st : Nat) (b : Json)
    (hm : healthFindFirst s uid dt date = none)
    (hc : client (snapReq path uid date) = .reply st b)
    (h1 : 200 ≤ st) (h2 : st < 300) (hf : b.truthy = false) :
    getSnapshot client s now path dt uid date = ⟨expressJson b, s, 1, 1, 0⟩ := by
  simp only [getSnapshot, hm, hc, axiosExec]
  rw [if_pos ⟨h1, h2⟩]
  simp [hf]

/-- C4 witness: a concrete empty-body success returns the empty body and
leaves the snapshot store empty. -/
theorem c4_witness :
    getSnapshot client204 [] 5 "/v2/processed_data/physical_health/summary"
        "physical_summary" "u1" "2024-01-01"
      = ⟨expressJson (.str ""), [], 1, 1, 0⟩ :=
  c4_empty_body_not_cached client204 [] 5 "/v2/processed_data/physical_health/summary"
    "physical_summary" "u1" "2024-01-01" 204 (.str "") rfl rfl (by decide) (by decide) rfl

/-- C7: an input that fails the Joi validation is answered 422 with the
first error message, before any upstream call or store operation. -/
theorem c7_validation_short_circuits
    (client : Client) (s : List UserRow) (b : ProfileBody) (m : String)
    (hv : validateUser b = some m) :
    submitProfile client s b = ⟨⟨422, errBody m⟩, s, 0, 0, 0⟩ := by
  simp [submitProfile, hv]

/-- C7 witness: a body without `user_id` is rejected with 422, no upstream
call, no store read and no store write. -/
theorem c7_witness :
    submitProfile clientScore [] badBody = ⟨⟨422, errBody "user_id is required"⟩, [], 0, 0, 0⟩ :=
  c7_validation_short_circuits clientScore [] badBody "user_id is required" rfl

/-- C8: with no `date` supplied and a stored row present, getProfile
returns the stored profile (wrapped in the user_info envelope) with no
upstream call and no store write. -/
theorem c8_stored_profile_authoritative
    (client : Client) (s : List UserRow) (uid : String) (u : UserRow)
    (hf : userFind s uid = some u) :
    getProfile client s uid none =
      ⟨expressJson (.obj [("data_structure", .str "user_info"),
                          ("user_information", userToJson u)]), s, 0, 1, 0⟩ := by
  simp [getProfile, hf, dateTruthy]

/-- C8 witness: a concrete stored profile is served without upstream. -/
theorem c8_witness :
    getProfile clientScore [rowU] "user-1" none =
      ⟨expressJson (.obj [("data_structure", .str "user_info"),
                          ("user_information", userToJson rowU)]), [rowU], 0, 1, 0⟩ :=
  c8_stored_profile_authoritative clientScore [rowU] "user-1" rowU rfl

/-- Rows of other users survive an upsert unchanged. -/
theorem upsertUser_mem_other {s : List UserRow} {uid : String}
    {upd : UserRow → UserRow} {created : UserRow} {r : UserRow}
    (hr : r ∈ s) (hne : r.user_id ≠ uid) :
    r ∈ upsertUser s uid upd created := by
  unfold upsertUser
  by_cases hany : s.any (fun x => x.user_id == uid) = true
  · rw [if_pos hany]
    refine List.mem_map.mpr ⟨r, hr, ?_⟩
    simp [hne]
  · rw [if_neg hany]
    exact List.mem_append_left _ hr

/-- The row of the targeted user is mapped through the update. -/
theorem upsertUser_mem_target {s : List UserRow} {uid : String}
    {upd : UserRow → UserRow} {created : UserRow} {r : UserRow}
    (hr : r ∈ s) (he : r.user_id = uid) :
    upd r ∈ upsertUser s uid upd created := by
  have hany : s.any (fun x => x.user_id == uid) = true :=
    List.any_eq_true.mpr ⟨r, hr, by simp [he]⟩
  unfold upsertUser
  rw [if_pos hany]
  refine List.mem_map.mpr ⟨r, hr, ?_⟩
  simp [he]

/-- When no row of the targeted user exists the upsert appends the
created row. -/
theorem upsertUser_create {s : List UserRow} {uid : String}
    {upd : UserRow → UserRow} {created : UserRow}
    (hn : s.any (fun x => x.user_id == uid) = false) :
    upsertUser s uid upd created = s ++ [created] := by
  unfold upsertUser
  rw [if_neg (by simp [hn])]

/-- Both time-zone arguments convert cleanly exactly when each does. -/
theorem tzArgs_ok {tz off : Option Json} {t o : FieldArg String}
    (h1 : strArg tz = .ok t) (h2 : strArg off = .ok o) :
    tzArgs tz off = .ok (t, o) := by
  unfold tzArgs
  rw [h1, h2]
  rfl

/-- C3: when validation passes but the upstream call is rejected or the
transport fails, submitProfile leaves the store untouched and surfaces
the status carried by the error (500 for a transport failure) together
with its message; moreover on every input at most one durable write
happens, and a write happens only when the upstream call resolved with a
success status. -/
theorem c3_upstream_failure_no_write
    (client : Client) (s : List UserRow) (b : ProfileBody) :
    (∀ e, validateUser b = none →
        axiosExec (client (userInfoReq b)) = .error e →
        submitProfile client s b =
          ⟨⟨statusOr500 e.status, errBody e.message⟩, s, 1, 0, 0⟩) ∧
    (submitProfile client s b).storeWrites ≤ 1 ∧
    ((submitProfile client s b).storeWrites = 1 →
        ∃ st rb, axiosExec (client (userInfoReq b)) = .ok (st, rb) ∧
          validateUser b = none ∧
          (submitProfile client s b).res = expressRespond st rb) := by
  refine ⟨?_, ?_, ?_⟩
  · intro e hv he
    simp [submitProfile, hv, he]
  · cases hv : validateUser b with
    | some m => simp [submitProfile, hv]
    | none =>
        cases ha : axiosExec (client (userInfoReq b)) with
        | error e => simp [submitProfile, hv, ha]
        | ok p =>
            obtain ⟨st, rb⟩ := p
            cases hw : userInfoWrite s b with
            | error m => simp [submitProfile, hv, ha, hw]
            | ok s2 => simp [submitProfile, hv, ha, hw]
  · intro h1
    cases hv : validateUser b with
    | some m => simp [submitProfile, hv] at h1
    | none =>
        cases ha : axiosExec (client (userInfoReq b)) with
        | error e => simp [submitProfile, hv, ha] at h1
        | ok p =>
            obtain ⟨st, rb⟩ := p
            cases hw : userInfoWrite s b with
            | error m => simp [submitProfile, hv, ha, hw] at h1
            | ok s2 =>
                exact ⟨st, rb, rfl, rfl, by simp [submitProfile, hv, ha, hw]⟩

/-- C3 witness: a concrete 400 rejection leaves the stored row unchanged
and surfaces 400 with the axios message; the write bound holds there. -/
theorem c3_witness :
    submitProfile client400 [rowU] bodyW =
      ⟨⟨statusOr500 (some 400), errBody "Request failed with status code 400"⟩,
       [rowU], 1, 0, 0⟩ ∧
    (submitProfile client400 [rowU] bodyW).storeWrites ≤ 1 := by
  have h := c3_upstream_failure_no_write client400 [rowU] bodyW
  exact ⟨h.1 ⟨some 400, some (.obj [("error", .str "bad payload")]),
    "Request failed with status code 400"⟩ rfl rfl, h.2.1⟩

/-- C10: setTimeZone performs no input validation: every call issues
exactly one upstream call whatever the shape of time_zone and offset; and
on upstream success with string-or-null-or-absent values the upsert stores
exactly the supplied values — a freshly created row holds NULL for absent
values, an updated row keeps its stored value for an absent value and
takes the supplied value otherwise, and rows of other users are
untouched. -/
theorem c10_timezone_no_validation
    (client : Client) (s : List UserRow) (uid : String) (tz off : Option Json) :
    (setTimeZone client s uid tz off).upstreamCalls = 1 ∧
    (∀ st rb t o, axiosExec (client (tzReq uid tz off)) = .ok (st, rb) →
        strArg tz = .ok t → strArg off = .ok o →
        ((s.any (fun r => r.user_id == uid) = false →
            (setTimeZone client s uid tz off).store =
              s ++ [⟨uid, none, none, none, none, none, createField t, createField o⟩]) ∧
         (∀ r, r ∈ s → r.user_id = uid →
            { r with time_zone := updField r.time_zone t, offset := updField r.offset o }
              ∈ (setTimeZone client s uid tz off).store) ∧
         (∀ r, r ∈ s → r.user_id ≠ uid →
            r ∈ (setTimeZone client s uid tz off).store))) := by
  constructor
  · cases ha : axiosExec (client (tzReq uid tz off)) with
    | error e => simp [setTimeZone, ha]
    | ok p =>
        obtain ⟨st, rb⟩ := p
        cases hw : tzArgs tz off with
        | error m => simp [setTimeZone, ha, hw]
        | ok q =>
            obtain ⟨t, o⟩ := q
            simp [setTimeZone, ha, hw]
  · intro st rb t o ha h1 h2
    have hstore : (setTimeZone client s uid tz off).store =
        upsertUser s uid
          (fun r => { r with time_zone := updField r.time_zone t,
                             offset := updField r.offset o })
          ⟨uid, none, none, none, none, none, createField t, createField o⟩ := by
      simp [setTimeZone, ha, tzArgs_ok h1 h2]
    refine ⟨?_, ?_, ?_⟩
    · intro hany
      rw [hstore, upsertUser_create hany]
    · intro r hr he
      rw [hstore]
      exact upsertUser_mem_target hr he
    · intro r hr hne
      rw [hstore]
      exact upsertUser_mem_other hr hne

/-- C10 witness: a call with both fields absent makes its one upstream
call and, on success, creates the row with NULL time zone and offset. -/
theorem c10_witness :
    (setTimeZone clientScore [] "u1" none none).upstreamCalls = 1 ∧
    (setTimeZone clientScore [] "u1" none none).store =
      [⟨"u1", none, none, none, none, none, none, none⟩] := by
  have h := c10_timezone_no_validation clientScore [] "u1" none none
  have h2 := (h.2 200 (.obj [("score", .num 82)]) .undef .undef rfl rfl rfl).1 rfl
  exact ⟨h.1, h2⟩

/-- Reduction of an Except bind on a success value. -/
theorem except_bind_ok {α β ε : Type} (a : α) (f : α → Except ε β) :
    (Except.ok a : Except ε α) >>= f = f a := rfl

/-- A sequence of checks with no failure has every check passing. -/
theorem firstErr_none {l : List (Option String)} (h : firstErr l = none) :
    ∀ x ∈ l, x = none := by
  induction l with
  | nil => intro x hx; cases hx
  | cons a rest ih =>
      cases a with
      | some e => simp [firstErr] at h
      | none =>
          intro x hx
          cases hx with
          | head => rfl
          | tail _ hx2 => exact ih h x hx2

/-- Decomposition of a passing validation into its eight checks. -/
theorem validateUser_none_parts {b : ProfileBody} (h : validateUser b = none) :
    checkDatetime b.datetime = none ∧ checkUserId b.user_id = none ∧
    checkDob b.date_of_birth_string = none ∧
    checkIntField "height_cm_int" b.height_cm_int = none ∧
    checkNumField "weight_kg_float" b.weight_kg_float = none ∧
    checkNumField "bmi_float" b.bmi_float = none ∧
    checkSex b.sex_string = none ∧ checkExtras b.extras = none := by
  have h2 : firstErr [checkDatetime b.datetime, checkUserId b.user_id,
    checkDob b.date_of_birth_string,
    checkIntField "height_cm_int" b.height_cm_int,
    checkNumField "weight_kg_float" b.weight_kg_float,
    checkNumField "bmi_float" b.bmi_float,
    checkSex b.sex_string, checkExtras b.extras] = none := h
  have h8 := firstErr_none h2
  exact ⟨h8 _ (by simp), h8 _ (by simp), h8 _ (by simp), h8 _ (by simp),
         h8 _ (by simp), h8 _ (by simp), h8 _ (by simp), h8 _ (by simp)⟩

/-- A user_id passing its check is a string. -/
theorem checkUserId_none_shape {x : Option Json} (h : checkUserId x = none) :
    ∃ u, x = some (.str u) := by
  cases x with
  | none => simp [checkUserId] at h
  | some v =>
      cases v with
      | str s => exact ⟨s, rfl⟩
      | null => simp [checkUserId] at h
      | bool c => simp [checkUserId] at h
      | num q => simp [checkUserId] at h
      | arr l => simp [checkUserId] at h
      | obj l => simp [checkUserId] at h

/-- A date of birth passing its check is absent or a string. -/
theorem checkDob_none_shape {x : Option Json} (h : checkDob x = none) :
    x = none ∨ ∃ d, x = some (.str d) := by
  cases x with
  | none => exact Or.inl rfl
  | some v =>
      cases v with
      | str s => exact Or.inr ⟨s, rfl⟩
      | null => simp [checkDob] at h
      | bool c => simp [checkDob] at h
      | num q => simp [checkDob] at h
      | arr l => simp [checkDob] at h
      | obj l => simp [checkDob] at h

/-- A sex field passing its check is absent or a string. -/
theorem checkSex_none_shape {x : Option Json} (h : checkSex x = none) :
    x = none ∨ ∃ v, x = some (.str v) := by
  cases x with
  | none => exact Or.inl rfl
  | some v =>
      cases v with
      | str s => exact Or.inr ⟨s, rfl⟩
      | null => simp [checkSex] at h
      | bool c => simp [checkSex] at h
      | num q => simp [checkSex] at h
      | arr l => simp [checkSex] at h
      | obj l => simp [checkSex] at h

/-- A number-typed field is absent or an actual number. -/
theorem numJson_shape {x : Option Json} (h : numJson x = true) :
    x = none ∨ ∃ q, x = some (.num q) := by
  cases x with
  | none => exact Or.inl rfl
  | some v =>
      cases v with
      | num q => exact Or.inr ⟨q, rfl⟩
      | null => simp [numJson] at h
      | bool c => simp [numJson] at h
      | str s => simp [numJson] at h
      | arr l => simp [numJson] at h
      | obj l => simp [numJson] at h

/-- A present number passing the integer check has denominator one. -/
theorem checkIntField_num_den {n : String} {q : ℚ}
    (h : checkIntField n (some (.num q)) = none) : q.den = 1 := by
  by_cases hd : q.den = 1
  · exact hd
  · simp [checkIntField, numberish, hd] at h

/-- C2: for a valid input (numeric fields carried as actual numbers) that
upstream accepts, on a store containing a row for its user, submitProfile
rewrites that row to the field-wise merge — each supplied field
overwrites, each absent field keeps its stored (possibly non-null) value,
no field is nulled — and leaves every other row unchanged. -/
theorem c2_merge_not_overwrite
    (client : Client) (s : List UserRow) (b : ProfileBody) (uid : String)
    (st : Nat) (rb : Json)
    (hv : validateUser b = none)
    (huid : b.user_id = some (.str uid))
    (hh : numJson b.height_cm_int = true)
    (hw : numJson b.weight_kg_float = true)
    (hb : numJson b.bmi_float = true)
    (hok : axiosExec (client (userInfoReq b)) = .ok (st, rb))
    (hex : s.any (fun r => r.user_id == uid) = true) :
    (submitProfile client s b).store =
      s.map (fun r => if r.user_id == uid then mergeRow r b else r) := by
  obtain ⟨-, -, hdob, hht, -, -, hsx, -⟩ := validateUser_none_parts hv
  simp only [List.any_eq_true, beq_iff_eq] at hex
  have hwr : userInfoWrite s b =
      Except.ok (s.map (fun r => if r.user_id == uid then mergeRow r b else r)) := by
    rcases checkDob_none_shape hdob with h1 | ⟨d, h1⟩ <;>
    rcases numJson_shape hh with h2 | ⟨q1, h2⟩ <;>
    rcases numJson_shape hw with h3 | ⟨q2, h3⟩ <;>
    rcases numJson_shape hb with h4 | ⟨q3, h4⟩ <;>
    rcases checkSex_none_shape hsx with h5 | ⟨v, h5⟩ <;>
    rw [h2] at hht <;>
    first
      | (have hden := checkIntField_num_den hht
         simp [userInfoWrite, huid, h1, h2, h3, h4, h5, strArg, intArg, floatArg,
           hden, upsertUser, hex, mergeRow, updField, except_bind_ok])
      | simp [userInfoWrite, huid, h1, h2, h3, h4, h5, strArg, intArg, floatArg,
           upsertUser, hex, mergeRow, updField, except_bind_ok]
  simp [submitProfile, hv, hok, hwr]

/-- C2 witness: the merge example of the spec — an existing profile with
height 180 and sex male, updated with only a weight of 75, keeps height
and sex and gains the weight. -/
theorem c2_witness :
    (submitProfile clientScore [rowU] bodyW).store =
      [rowU].map (fun r => if r.user_id == "user-1" then mergeRow r bodyW else r) ∧
    [rowU].map (fun r => if r.user_id == "user-1" then mergeRow r bodyW else r) =
      [⟨"user-1", none, some 180, some 75, none, some "male", none, none⟩] := by
  refine ⟨c2_merge_not_overwrite clientScore [rowU] bodyW "user-1" 200
    (.obj [("score", .num 82)]) rfl rfl rfl rfl rfl rfl rfl, by rfl⟩

/-- C5 counterexample: when upstream answers a 204 (the no-content
signal), the snapshot route does not produce the no-content outcome
(status 204, as `handleNoContent` defines it): because the default axios
`validateStatus` resolves a 204 as a success, the route answers through
its plain `res.json` success path — status 200 — carrying the empty body,
so the part of the claim requiring the explicit no-content outcome fails
for getSnapshot. -/
theorem c5_counterexample :
    client204 (snapReq "/v2/processed_data/physical_health/summary" "u1" "2024-01-01")
      = .reply 204 (.str "") ∧
    (getSnapshot client204 [] 5 "/v2/processed_data/physical_health/summary"
        "physical_summary" "u1" "2024-01-01").res = ⟨200, .jsonBody (.str "")⟩ ∧
    (200 : Nat) ≠ 204 :=
  ⟨rfl, rfl, by decide⟩

/-- C5 amended: on the upstream 204 no-content signal neither operation
creates a cache row and neither produces an error outcome; getProfile
passes the 204 through as an empty no-content response, while the
snapshot routes flatten it to a status-200 success carrying the empty
body. -/
theorem c5_no_content_amended
    (client : Client) (sh : HealthStore) (su : List UserRow) (now : Nat)
    (path dt uid date uid2 : String) (d2 : Option String) :
    (healthFindFirst sh uid dt date = none →
        client (snapReq path uid date) = .reply 204 (.str "") →
        getSnapshot client sh now path dt uid date =
          ⟨⟨200, .jsonBody (.str "")⟩, sh, 1, 1, 0⟩) ∧
    (userFind su uid2 = none →
        client (profileReq uid2 d2) = .reply 204 (.str "") →
        getProfile client su uid2 d2 = ⟨⟨204, .empty⟩, su, 1, 1, 0⟩) := by
  constructor
  · intro hm hc
    simp only [getSnapshot, hm, hc, axiosExec]
    rw [if_pos (by decide : (200 : Nat) ≤ 204 ∧ 204 < 300)]
    simp [Json.truthy, expressJson]
  · intro hf hc
    simp only [getProfile, hf, getProfileFetch, hc, axiosExec]
    rw [if_pos (by decide : (200 : Nat) ≤ 204 ∧ 204 < 300)]
    simp [Json.propE, Json.prop, jsTruthy, expressRespond]

/-- C5 witness: concrete 204 answers — the snapshot route returns a 200
with the empty body and writes nothing; getProfile returns an empty 204
and writes nothing. -/
theorem c5_witness :
    getSnapshot client204 [] 7 "/v2/processed_data/sleep_health/summary"
        "sleep_summary" "u1" "2024-01-01" = ⟨⟨200, .jsonBody (.str "")⟩, [], 1, 1, 0⟩ ∧
    getProfile client204 [] "u1" (some "2024-01-01") = ⟨⟨204, .empty⟩, [], 1, 1, 0⟩ := by
  have h := c5_no_content_amended client204 [] [] 7
    "/v2/processed_data/sleep_health/summary" "sleep_summary" "u1" "2024-01-01"
    "u1" (some "2024-01-01")
  exact ⟨h.1 rfl rfl, h.2 rfl rfl⟩

/-- C6 counterexample: on a snapshot cache miss with upstream status 201
(in the success range) the route answers with plain `res.json`, whose
status is 200, not the upstream status: the status pass-through claimed
for every getSnapshot cache-miss path fails. -/
theorem c6_counterexample :
    client201 (snapReq "/v2/processed_data/physical_health/summary" "u1" "2024-01-01")
      = .reply 201 (.obj [("created", .bool true)]) ∧
    (getSnapshot client201 [] 5 "/v2/processed_data/physical_health/summary"
        "physical_summary" "u1" "2024-01-01").res.status = 200 ∧
    (200 : Nat) ≠ 201 :=
  ⟨rfl, rfl, by decide⟩

/-- C6 amended: when upstream resolves with a success status, submitProfile
passes the upstream status and body through unchanged provided the
merge-upsert raises no store error, and getProfile (upstream path) does
the same provided the body is not JSON null and the date-of-birth
write-back raises no store error (pass-through is via `expressRespond`,
which strips the body of a 204 exactly as Express does); a JSON null body
instead makes the `user_information` property access throw, and getProfile
answers 500 with the TypeError message — not the upstream response.  The
snapshot cache-miss paths pass the body through but always answer status
200, whatever the upstream success status was. -/
theorem c6_success_passthrough
    (client : Client) (s : List UserRow) (b : ProfileBody) (s2 su : List UserRow)
    (uid : String) (d : Option String)
    (sh : HealthStore) (now : Nat) (path dt uid2 date : String) :
    (∀ st rb, validateUser b = none →
        axiosExec (client (userInfoReq b)) = .ok (st, rb) →
        userInfoWrite s b = .ok s2 →
        (submitProfile client s b).res = expressRespond st rb) ∧
    (∀ st rb da, userFind su uid = none →
        axiosExec (client (profileReq uid d)) = .ok (st, rb) →
        rb ≠ .null →
        (∀ ui, rb.propE "user_information" = .ok ui → jsTruthy ui = true →
            strArg (jsOptChain (jsOptChain ui "user_demographics")
              "date_of_birth_string") = .ok da) →
        (getProfile client su uid d).res = expressRespond st rb) ∧
    (∀ st rb, healthFindFirst sh uid2 dt date = none →
        axiosExec (client (snapReq path uid2 date)) = .ok (st, rb) →
        (getSnapshot client sh now path dt uid2 date).res = ⟨200, .jsonBody rb⟩) ∧
    (∀ st, userFind su uid = none →
        axiosExec (client (profileReq uid d)) = .ok (st, .null) →
        getProfile client su uid d =
          ⟨⟨500, errBody ("TypeError: Cannot read properties of null (reading "
              ++ "user_information" ++ ")")⟩, su, 1, 1, 0⟩) := by
  refine ⟨?_, ?_, ?_, ?_⟩
  · intro st rb hv ha hw
    simp [submitProfile, hv, ha, hw]
  · intro st rb da hf ha hnn hstr
    have hui : rb.propE "user_information" = .ok (rb.prop "user_information") := by
      cases rb with
      | null => exact absurd rfl hnn
      | bool c => rfl
      | num q => rfl
      | str t => rfl
      | arr l => rfl
      | obj l => rfl
    simp only [getProfile, hf, getProfileFetch, ha, hui]
    cases htr : jsTruthy (rb.prop "user_information") with
    | false => simp
    | true =>
        rw [hstr (rb.prop "user_information") hui htr]
        simp
  · intro st rb hm ha
    simp only [getSnapshot, hm, ha]
    cases htr : rb.truthy with
    | false => simp [expressJson]
    | true => simp [expressJson]
  · intro st hf ha
    simp [getProfile, hf, getProfileFetch, ha, Json.propE]

/-- C6 witness: concrete success pass-throughs on the first three paths —
the snapshot path gets a 201 from upstream yet answers 200 — and the
concrete JSON-null-body success on which getProfile answers the 500
TypeError outcome instead of passing the response through. -/
theorem c6_witness :
    (submitProfile clientScore [rowU] bodyW).res =
      expressRespond 200 (.obj [("score", .num 82)]) ∧
    (getProfile clientScore [] "u1" (some "2024-01-01")).res =
      expressRespond 200 (.obj [("score", .num 82)]) ∧
    (getSnapshot client201 [] 5 "/v2/processed_data/physical_health/summary"
        "physical_summary" "u1" "2024-01-01").res =
      ⟨200, .jsonBody (.obj [("created", .bool true)])⟩ ∧
    getProfile clientNull [] "u1" (some "2024-01-01") =
      ⟨⟨500, errBody ("TypeError: Cannot read properties of null (reading "
          ++ "user_information" ++ ")")⟩, [], 1, 1, 0⟩ := by
  have hc6 := c6_success_passthrough clientScore [rowU] bodyW
      [⟨"user-1", none, some 180, some 75, none, some "male", none, none⟩] []
      "u1" (some "2024-01-01") [] 5 "/p" "dt" "u" "d"
  have h1 := hc6.1 200 (.obj [("score", .num 82)]) rfl rfl rfl
  have h2 := hc6.2.1 200 (.obj [("score", .num 82)]) .undef rfl rfl
    (by intro h; exact Json.noConfusion h)
    (by intro ui hu ht
        simp [Json.propE, Json.prop] at hu
        subst hu
        exact absurd ht (by decide))
  have hc6b := c6_success_passthrough client201 [rowU] bodyW
      [⟨"user-1", none, some 180, some 75, none, some "male", none, none⟩] []
      "u1" (some "2024-01-01") [] 5 "/v2/processed_data/physical_health/summary"
      "physical_summary" "u1" "2024-01-01"
  have h3 := hc6b.2.2.1 201 (.obj [("created", .bool true)]) rfl rfl
  have hc6c := c6_success_passthrough clientNull [rowU] bodyW
      [⟨"user-1", none, some 180, some 75, none, some "male", none, none⟩] []
      "u1" (some "2024-01-01") [] 5 "/p" "dt" "u" "d"
  have h4 := hc6c.2.2.2 200 rfl rfl
  exact ⟨h1, h2, h3, h4⟩

/-- C9 counterexample: an upstream response whose user_information is
truthy but whose date_of_birth_string is explicitly null carries no
date-of-birth value, yet the write-back runs and clears the stored
date_of_birth of the user to NULL — refuting the part of the claim that
the field is written back only when a date-of-birth value exists. -/
theorem c9_counterexample :
    clientDobNull (profileReq "u1" (some "2024-06-01")) = .reply 200 bodyDobNull ∧
    jsOptChain (jsOptChain (Json.prop bodyDobNull "user_information") "user_demographics")
        "date_of_birth_string" = some .null ∧
    rowDob.date_of_birth = some "1990-01-01" ∧
    (getProfile clientDobNull [rowDob] "u1" (some "2024-06-01")).store =
      [⟨"u1", none, none, none, none, none, none, none⟩] :=
  ⟨rfl, rfl, rfl, rfl⟩

/-- C9 amended: on the upstream path with a successful answer the upstream
payload is returned; the write-back runs exactly when the user_information
field of the response is truthy and touches only date_of_birth, setting it
from the dob field of the response — keeping the stored value when that
field is absent, but clearing it to NULL when the field is explicitly
null; rows of other users are untouched, and when no row exists (and
user_information is truthy) a fresh row is created carrying only the dob
value (NULL when absent or null). -/
theorem c9_writeback_frame
    (client : Client) (s : List UserRow) (uid : String) (date : Option String)
    (st : Nat) (rb : Json) (ui : Option Json) (da : FieldArg String)
    (hd : dateTruthy date = true)
    (hok : axiosExec (client (profileReq uid date)) = .ok (st, rb))
    (hui : rb.propE "user_information" = .ok ui)
    (hda : strArg (jsOptChain (jsOptChain ui "user_demographics")
        "date_of_birth_string") = .ok da) :
    (getProfile client s uid date).res = expressRespond st rb ∧
    (∀ r, r ∈ s → r.user_id ≠ uid → r ∈ (getProfile client s uid date).store) ∧
    (∀ r, r ∈ s → r.user_id = uid →
        { r with date_of_birth :=
            if jsTruthy ui then updField r.date_of_birth da else r.date_of_birth }
          ∈ (getProfile client s uid date).store) ∧
    (jsTruthy ui = false → (getProfile client s uid date).store = s) ∧
    (jsTruthy ui = true → s.any (fun r => r.user_id == uid) = false →
        (getProfile client s uid date).store =
          s ++ [⟨uid, createField da, none, none, none, none, none, none⟩]) := by
  have hred : getProfile client s uid date = getProfileFetch client s uid date := by
    unfold getProfile
    cases hf : userFind s uid with
    | some u => simp [hd]
    | none => rfl
  rw [hred]
  cases htr : jsTruthy ui with
  | false =>
      have hfe : getProfileFetch client s uid date =
          ⟨expressRespond st rb, s, 1, 1, 0⟩ := by
        simp [getProfileFetch, hok, hui, htr]
      rw [hfe]
      refine ⟨rfl, fun r hr _ => hr, fun r hr he => ?_, fun _ => rfl, ?_⟩
      · simpa using hr
      · intro hcontra _
        simp [htr] at hcontra
  | true =>
      have hfe : getProfileFetch client s uid date =
          ⟨expressRespond st rb,
           upsertUser s uid
             (fun r => { r with date_of_birth := updField r.date_of_birth da })
             ⟨uid, createField da, none, none, none, none, none, none⟩, 1, 1, 1⟩ := by
        simp [getProfileFetch, hok, hui, htr, hda]
      rw [hfe]
      refine ⟨rfl, ?_, ?_, ?_, ?_⟩
      · intro r hr hne
        exact upsertUser_mem_other hr hne
      · intro r hr he
        simpa using @upsertUser_mem_target s uid
          (fun r => { r with date_of_birth := updField r.date_of_birth da })
          ⟨uid, createField da, none, none, none, none, none, none⟩ r hr he
      · intro hcontra
        simp [htr] at hcontra
      · intro _ hany
        exact upsertUser_create hany

/-- C9 witness: with a date-of-birth value in the response, the payload is
returned and the stored row of the user gains exactly that date of birth,
its other fields untouched. -/
theorem c9_witness :
    (getProfile clientDobVal [rowDob] "u1" (some "2024-06-01")).res =
      expressRespond 200 bodyDobVal ∧
    { rowDob with date_of_birth :=
        if jsTruthy (Json.prop bodyDobVal "user_information") then
          updField rowDob.date_of_birth (.val "1985-05-05")
        else rowDob.date_of_birth }
      ∈ (getProfile clientDobVal [rowDob] "u1" (some "2024-06-01")).store := by
  have h := c9_writeback_frame clientDobVal [rowDob] "u1" (some "2024-06-01") 200
    bodyDobVal (Json.prop bodyDobVal "user_information") (.val "1985-05-05")
    rfl rfl rfl rfl
  exact ⟨h.1, h.2.2.1 rowDob (by simp) rfl⟩

end Rook
